import Mathlib

/-!
Verification development for the gdrive-cli-downloader repository
(`gcd.py`, `gdrive_handler.py`, `get_files.py`).

The Python modules are shallowly embedded: every network fetch is
abstracted into an environment record carrying the response bodies,
status codes and session cookies that the code inspects, and every
`os.system` invocation is abstracted into an oracle `String → Int`
mapping the exact command string to its exit code.  The regular
expressions used by the scraper are transcribed into a small
backtracking pattern engine (`Pat` below); all quantifiers occurring in
the source patterns range over single-character classes, so matching is
finite and executable.
-/

namespace Gdrive

/-- Captured groups of one regex match: (group index, captured text). -/
abbrev Caps := List (Nat × String)

/-- Group accessor; Python's `match.group(i)` for the groups we record. -/
def capGet (caps : Caps) (i : Nat) : String :=
  match caps.find? (fun p => p.1 == i) with
  | some p => p.2
  | none => ""

/-- Pattern AST covering exactly the constructs used by the source regexes:
literals, single-char-class quantifiers (greedy `*`/`+`/`{n,}`, lazy `*?`),
alternation, capture groups and `$`. -/
inductive Pat : Type where
  | lit : String → Pat
  | seqP : Pat → Pat → Pat
  | altP : Pat → Pat → Pat
  | starG : (Char → Bool) → Pat
  | starL : (Char → Bool) → Pat
  | plusG : (Char → Bool) → Pat
  | repG : Nat → (Char → Bool) → Pat
  | grp : Nat → Pat → Pat
  | eol : Pat

/-- Right-nested sequencing of a pattern list. -/
def pseq (ps : List Pat) : Pat :=
  match ps with
  | [] => Pat.lit ""
  | [p] => p
  | p :: rest => Pat.seqP p (pseq rest)

/-- All ways a pattern can match a prefix of `s`, as (consumed length,
captures), in Python-backtracking priority order (first element = the
match the regex engine commits to). -/
def pmatch : Pat → List Char → List (Nat × Caps)
  | Pat.lit l, s => if l.data.isPrefixOf s then [(l.data.length, [])] else []
  | Pat.seqP a b, s =>
      (pmatch a s).flatMap (fun r =>
        (pmatch b (s.drop r.1)).map (fun r2 => (r.1 + r2.1, r.2 ++ r2.2)))
  | Pat.altP a b, s => pmatch a s ++ pmatch b s
  | Pat.starG p, s =>
      let n := (s.takeWhile p).length
      (List.range (n + 1)).reverse.map (fun k => (k, []))
  | Pat.starL p, s =>
      let n := (s.takeWhile p).length
      (List.range (n + 1)).map (fun k => (k, []))
  | Pat.plusG p, s =>
      let n := (s.takeWhile p).length
      (List.range n).reverse.map (fun k => (k + 1, []))
  | Pat.repG m p, s =>
      let n := (s.takeWhile p).length
      if m ≤ n then (List.range (n + 1 - m)).reverse.map (fun k => (m + k, []))
      else []
  | Pat.grp i a, s =>
      (pmatch a s).map (fun r => (r.1, (i, String.mk (s.take r.1)) :: r.2))
  | Pat.eol, s => if s = [] ∨ s = ['\n'] then [(0, [])] else []

/-- `re.search`: leftmost match wins; returns its captures. -/
def reSearch (p : Pat) : List Char → Option Caps
  | [] => ((pmatch p []).head?).map (fun r => r.2)
  | c :: rest =>
    match (pmatch p (c :: rest)).head? with
    | some r => some r.2
    | none => reSearch p rest

/-- Worker for `re.findall`: scan left to right, emit each leftmost match,
resume after its end (advancing one char on a zero-width match). -/
def reFindAllAux (p : Pat) : Nat → List Char → List Caps
  | 0, _ => []
  | _ + 1, [] =>
    match (pmatch p []).head? with
    | some r => [r.2]
    | none => []
  | fuel + 1, c :: rest =>
    match (pmatch p (c :: rest)).head? with
    | some r =>
        if r.1 = 0 then r.2 :: reFindAllAux p fuel rest
        else r.2 :: reFindAllAux p fuel ((c :: rest).drop r.1)
    | none => reFindAllAux p fuel rest

/-- `re.findall`, returning the capture lists of all matches. -/
def reFindAll (p : Pat) (s : List Char) : List Caps :=
  reFindAllAux p (s.length + 1) s

/-- Worker for `re.sub(pat, '', s)`: delete every match, scanning left to
right and resuming after each deleted match. -/
def reDeleteAllAux (p : Pat) : Nat → List Char → List Char
  | 0, s => s
  | _ + 1, [] => []
  | fuel + 1, c :: rest =>
    match (pmatch p (c :: rest)).head? with
    | some r =>
        if r.1 = 0 then c :: reDeleteAllAux p fuel rest
        else reDeleteAllAux p fuel ((c :: rest).drop r.1)
    | none => c :: reDeleteAllAux p fuel rest

/-- `re.sub(pat, '', s)` on strings. -/
def reDeleteAll (p : Pat) (s : String) : String :=
  String.mk (reDeleteAllAux p (s.data.length + 1) s.data)

/-- Python's `needle in hay` substring test, on char lists. -/
def isInfixL (needle : List Char) : List Char → Bool
  | [] => needle.isEmpty
  | c :: rest => needle.isPrefixOf (c :: rest) || isInfixL needle rest

/-- Python's `needle in hay` substring test, on strings. -/
def subStr (needle hay : String) : Bool :=
  isInfixL needle.data hay.data

/-- Worker for Python `str.replace` (all non-overlapping occurrences,
left to right). -/
def pyReplaceAux (pat repl : List Char) : Nat → List Char → List Char
  | 0, s => s
  | _ + 1, [] => []
  | fuel + 1, c :: rest =>
    if pat.isPrefixOf (c :: rest) then
      repl ++ pyReplaceAux pat repl fuel ((c :: rest).drop pat.length)
    else c :: pyReplaceAux pat repl fuel rest

/-- Python `s.replace(pat, repl)`; the sources never call it with an empty
needle, which we map to the identity. -/
def pyReplace (s pat repl : String) : String :=
  if pat.data.isEmpty then s
  else String.mk (pyReplaceAux pat.data repl.data (s.data.length + 1) s.data)

/-- Python `s.lower()` (ASCII case folding, as `str.lower` acts on the
characters occurring here). -/
def pyLower (s : String) : String :=
  String.mk (s.data.map Char.toLower)

/-- Python `s.startswith(pre)`. -/
def pyStartsWith (s pre : String) : Bool :=
  pre.data.isPrefixOf s.data

/-- Python's `\s` class / `str.strip` whitespace set (ASCII part). -/
def pyWS (c : Char) : Bool :=
  c == ' ' || c == '\t' || c == '\n' || c == '\r' || c == '\x0b' || c == '\x0c'

/-- Python `str.strip()`. -/
def pyStrip (s : String) : String :=
  String.mk (((s.data.dropWhile pyWS).reverse.dropWhile pyWS).reverse)

/-- Python `s.rstrip('",')` as used when cleaning scraped names. -/
def rstripQuoteComma (s : String) : String :=
  String.mk ((s.data.reverse.dropWhile (fun c => c == '"' || c == ',')).reverse)

/-! ## Character classes of the source regexes -/

/-- `[^"]`. -/
def nonQ (c : Char) : Bool := c != '"'

/-- `[^<]`. -/
def nonLt (c : Char) : Bool := c != '<'

/-- `[^>]`. -/
def nonGt (c : Char) : Bool := c != '>'

/-- `[^/]`. -/
def nonSlash (c : Char) : Bool := c != '/'

/-- `[^\]]`. -/
def nonRB (c : Char) : Bool := c != ']'

/-- `.` without `re.DOTALL`. -/
def anyDot (c : Char) : Bool := c != '\n'

/-- `.` with `re.DOTALL`. -/
def anyDotAll (_ : Char) : Bool := true

/-- `[a-zA-Z0-9_-]`. -/
def idChar (c : Char) : Bool := c.isAlphanum || c == '_' || c == '-'

/-! ## The regexes of `gdrive_handler.py`, transcribed -/

/-- `<meta property="og:title" content="([^"]+)">` (file-view filename pattern 1). -/
def ogTitleViewPat : Pat :=
  pseq [Pat.lit "<meta property=\"og:title\" content=\"", Pat.grp 1 (Pat.plusG nonQ),
    Pat.lit "\">"]

/-- `<title>([^<]+) - Google Drive</title>` (file-view filename pattern 2,
also the first folder-name pattern). -/
def titleGDPat : Pat :=
  pseq [Pat.lit "<title>", Pat.grp 1 (Pat.plusG nonLt), Pat.lit " - Google Drive</title>"]

/-- `"title":"([^"]+)"` (file-view filename pattern 3). -/
def jsonTitlePat : Pat :=
  pseq [Pat.lit "\"title\":\"", Pat.grp 1 (Pat.plusG nonQ), Pat.lit "\""]

/-- `<span class="uc-name-size"><a[^>]*>([^<]+)</a>` (download-page fallback 1). -/
def ucNameSizePat : Pat :=
  pseq [Pat.lit "<span class=\"uc-name-size\"><a", Pat.starG nonGt, Pat.lit ">",
    Pat.grp 1 (Pat.plusG nonLt), Pat.lit "</a>"]

/-- `<span class="uc-name-size">\s*<a[^>]*>([^<]+)</a>` (download-page fallback 2). -/
def ucNameSizeWsPat : Pat :=
  pseq [Pat.lit "<span class=\"uc-name-size\">", Pat.starG pyWS, Pat.lit "<a",
    Pat.starG nonGt, Pat.lit ">", Pat.grp 1 (Pat.plusG nonLt), Pat.lit "</a>"]

/-- `filename="([^"]+)"` (download-page fallback 3). -/
def filenameEqPat : Pat :=
  pseq [Pat.lit "filename=\"", Pat.grp 1 (Pat.plusG nonQ), Pat.lit "\""]

/-- `<h2>([^<]+)</h2>` (download-page fallback 4). -/
def h2Pat : Pat :=
  pseq [Pat.lit "<h2>", Pat.grp 1 (Pat.plusG nonLt), Pat.lit "</h2>"]

/-- `<form id="download-form" action="([^"]+)"` (interstitial form action). -/
def formActionPat : Pat :=
  pseq [Pat.lit "<form id=\"download-form\" action=\"", Pat.grp 1 (Pat.plusG nonQ),
    Pat.lit "\""]

/-- `<input type="hidden" name="confirm" value="([^"]+)"` (interstitial token). -/
def confirmValuePat : Pat :=
  pseq [Pat.lit "<input type=\"hidden\" name=\"confirm\" value=\"",
    Pat.grp 1 (Pat.plusG nonQ), Pat.lit "\""]

/-- `<meta property="og:title" content="([^"]+)"` (folder-name pattern 2 — note:
unlike the file-view variant it has no trailing `>`). -/
def ogTitlePat : Pat :=
  pseq [Pat.lit "<meta property=\"og:title\" content=\"", Pat.grp 1 (Pat.plusG nonQ),
    Pat.lit "\""]

/-- `<title>([^<]+)</title>` (folder-name pattern 3, from the iframe). -/
def iframeTitlePat : Pat :=
  pseq [Pat.lit "<title>", Pat.grp 1 (Pat.plusG nonLt), Pat.lit "</title>"]

/-- The `re.DOTALL` pattern of `get_files_from_iframe` method 1:
`<div class="flip-entry-([^"]+)".*?href="https://drive\.google\.com/file/d/([^/]+)/.*?<div class="flip-entry-title">(.*?)</div>`. -/
def flipEntryFullPat : Pat :=
  pseq [Pat.lit "<div class=\"flip-entry-", Pat.grp 1 (Pat.plusG nonQ), Pat.lit "\"",
    Pat.starL anyDotAll, Pat.lit "href=\"https://drive.google.com/file/d/",
    Pat.grp 2 (Pat.plusG nonSlash), Pat.lit "/", Pat.starL anyDotAll,
    Pat.lit "<div class=\"flip-entry-title\">", Pat.grp 3 (Pat.starL anyDotAll),
    Pat.lit "</div>"]

/-- `href="https://drive\.google\.com/file/d/([^/]+)/` (iframe method 2, ids). -/
def fileHrefPat : Pat :=
  pseq [Pat.lit "href=\"https://drive.google.com/file/d/", Pat.grp 1 (Pat.plusG nonSlash),
    Pat.lit "/"]

/-- `<div class="flip-entry-title">(.*?)</div>` (iframe method 2, names; no DOTALL). -/
def flipTitlePat : Pat :=
  pseq [Pat.lit "<div class=\"flip-entry-title\">", Pat.grp 1 (Pat.starL anyDot),
    Pat.lit "</div>"]

/-- `window\[\'_DRIVE_ivd\'\]\s*=\s*\'(.*?)\'` (`extract_file_data` method 1). -/
def driveIvdPat : Pat :=
  pseq [Pat.lit "window[\x27_DRIVE_ivd\x27]", Pat.starG pyWS, Pat.lit "=",
    Pat.starG pyWS, Pat.lit "\x27", Pat.grp 1 (Pat.starL anyDot), Pat.lit "\x27"]

/-- `\["([a-zA-Z0-9_-]{28,})",\[("[a-zA-Z0-9_-]+"|null)` (method 1, entries). -/
def ivdEntryPat : Pat :=
  pseq [Pat.lit "[\"", Pat.grp 1 (Pat.repG 28 idChar), Pat.lit "\",[",
    Pat.grp 2 (Pat.altP (pseq [Pat.lit "\"", Pat.plusG idChar, Pat.lit "\""])
      (Pat.lit "null"))]

/-- `rf'\["{file_id}",[^\]]+\],\["([^"]+)"'` (method 1, name lookup for one id;
the interpolated id consists of `[a-zA-Z0-9_-]` chars, so it behaves as a
literal inside the pattern). -/
def ivdNamePat (file_id : String) : Pat :=
  pseq [Pat.lit ("[\"" ++ file_id ++ "\","), Pat.plusG nonRB, Pat.lit "],[\"",
    Pat.grp 1 (Pat.plusG nonQ), Pat.lit "\""]

/-- `data-id="([^"]+)"[^>]*data-target="([^"]+)"[^>]*aria-label="([^"]+)"`
(`extract_file_data` method 2). -/
def dataIdPat : Pat :=
  pseq [Pat.lit "data-id=\"", Pat.grp 1 (Pat.plusG nonQ), Pat.lit "\"", Pat.starG nonGt,
    Pat.lit "data-target=\"", Pat.grp 2 (Pat.plusG nonQ), Pat.lit "\"", Pat.starG nonGt,
    Pat.lit "aria-label=\"", Pat.grp 3 (Pat.plusG nonQ), Pat.lit "\""]

/-- `aria-label="([^"]+)"[^>]*href="[^"]*\/(?:file|folders)\/([a-zA-Z0-9_-]{28,})`
(`extract_file_data` method 3). -/
def ariaHrefPat : Pat :=
  pseq [Pat.lit "aria-label=\"", Pat.grp 1 (Pat.plusG nonQ), Pat.lit "\"",
    Pat.starG nonGt, Pat.lit "href=\"", Pat.starG nonQ, Pat.lit "/",
    Pat.altP (Pat.lit "file") (Pat.lit "folders"), Pat.lit "/",
    Pat.grp 2 (Pat.repG 28 idChar)]

/-- `\["([a-zA-Z0-9_-]{28,})",[^\]]*\],\["([^"]+)"\]` (`extract_file_data` method 4). -/
def bracketPairPat : Pat :=
  pseq [Pat.lit "[\"", Pat.grp 1 (Pat.repG 28 idChar), Pat.lit "\",", Pat.starG nonRB,
    Pat.lit "],[\"", Pat.grp 2 (Pat.plusG nonQ), Pat.lit "\"]"]

/-- `\[\s*"[^"]*"\s*,\s*\[.*$` (name-artifact cleanup in `list_files_in_folder`). -/
def nameArtifactPat : Pat :=
  pseq [Pat.lit "[", Pat.starG pyWS, Pat.lit "\"", Pat.starG nonQ, Pat.lit "\"",
    Pat.starG pyWS, Pat.lit ",", Pat.starG pyWS, Pat.lit "[", Pat.starG anyDot,
    Pat.eol]

/-! ## Data model -/

/-- One folder entry as built by the enumeration strategies
(the Python dicts `{"id": .., "name": .., "type": ..}`). -/
structure DriveFile where
  id : String
  name : String
  type : String
deriving Repr, DecidableEq

/-- One item of the internal listing endpoint's JSON `items` array,
restricted to the fields the code reads. -/
structure ApiItem where
  id : String
  title : String
  mimeType : String
deriving Repr, DecidableEq

/-- Remote responses observed by `get_download_url_and_filename`: the
file-view fetch (status and body), the export-download fetch (body), and
the session's accumulated cookies after both fetches, in insertion order. -/
structure FileEnv where
  viewStatus : Nat
  viewBody : String
  dlBody : String
  cookies : List (String × String)
deriving Repr, DecidableEq

/-- Remote responses observed during one `list_files_in_folder` call:
one field per network fetch the code can perform. -/
structure FolderEnv where
  namePageBody : String
  nameIframeBody : String
  iframeStatus : Nat
  iframeBody : String
  apiItems : Option (List ApiItem)
  scrapeBody : String
  altScrapeBody : String
deriving Repr, DecidableEq

/-! ## Confirmation-token resolver (`get_download_url_and_filename`) -/

/-- Python truthiness of the `filename` variable (`None` and `""` are falsy). -/
def strTruthy (o : Option String) : Bool :=
  match o with
  | some s => !s.data.isEmpty
  | none => false

/-- The filename-pattern loop: first matching pattern wins, its group(1)
is stripped (`match.group(1).strip()`). -/
def firstPatternMatch : List Pat → String → Option String
  | [], _ => none
  | p :: ps, body =>
    match reSearch p body.data with
    | some caps => some (pyStrip (capGet caps 1))
    | none => firstPatternMatch ps body

/-- The three file-view filename patterns, in source order. -/
def filename_patterns_view : List Pat := [ogTitleViewPat, titleGDPat, jsonTitlePat]

/-- The four download-page fallback filename patterns, in source order. -/
def filename_patterns_download : List Pat :=
  [ucNameSizePat, ucNameSizeWsPat, filenameEqPat, h2Pat]

/-- The literal interstitial marker tested with `in response.text`. -/
def virusWarning : String := "Google Drive can\x27t scan this file for viruses"

/-- The canonical export-download URL for an id. -/
def exportUrl (file_id : String) : String :=
  "https://drive.google.com/uc?id=" ++ file_id ++ "&export=download"

/-- The confirm URL synthesized from a token (used by both the interstitial
branch and the cookie branch). -/
def confirmUrl (confirm file_id : String) : String :=
  "https://drive.google.com/uc?export=download&confirm=" ++ confirm ++ "&id=" ++ file_id

/-- The `download_warning_` cookie scan: first cookie whose name starts with
the prefix, returning its value. -/
def downloadWarningConfirm : List (String × String) → Option String
  | [] => none
  | (k, v) :: rest =>
    if pyStartsWith k "download_warning_" then some v else downloadWarningConfirm rest

/-- `get_download_url_and_filename` (gdrive_handler.py lines 17-92), with the
two fetches abstracted into `env`.  Returns `(download_url, cookies, filename)`;
`session.cookies.get_dict()` is modeled as the cookie association list. -/
def get_download_url_and_filename (file_id : String) (env : FileEnv) :
    String × List (String × String) × Option String :=
  let filename : Option String :=
    if env.viewStatus = 200 then firstPatternMatch filename_patterns_view env.viewBody
    else none
  let url := exportUrl file_id
  let filename : Option String :=
    if strTruthy filename then filename
    else
      match firstPatternMatch filename_patterns_download env.dlBody with
      | some f => some f
      | none => filename
  let cookieStep : String × List (String × String) × Option String :=
    match downloadWarningConfirm env.cookies with
    | some v => (confirmUrl v file_id, env.cookies, filename)
    | none => (url, env.cookies, filename)
  if subStr virusWarning env.dlBody then
    match reSearch formActionPat env.dlBody.data, reSearch confirmValuePat env.dlBody.data with
    | some _, some cv => (confirmUrl (capGet cv 1) file_id, env.cookies, filename)
    | _, _ => cookieStep
  else cookieStep

/-! ## Download option building and filename sanitization -/

/-- The filename sanitization of `build_aria2c_options` (line 113):
`.replace('"', '\\"').replace('*', '_').replace('?', '_').replace('|', '_').replace(':', '_')`. -/
def sanitizeSingle (filename : String) : String :=
  pyReplace (pyReplace (pyReplace (pyReplace (pyReplace filename "\"" "\\\"")
    "*" "_") "?" "_") "|" "_") ":" "_"

/-- `build_aria2c_options` (lines 94-119); the unused `download_url` argument
is kept to mirror the signature. -/
def build_aria2c_options (_download_url : String) (cookies : List (String × String))
    (filename : Option String) (file_id : String) : String × String :=
  let cookie_header := String.intercalate "; " (cookies.map (fun p => p.1 ++ "=" ++ p.2))
  let output_option :=
    if strTruthy filename then
      "-o \"" ++ sanitizeSingle ((filename.getD "")) ++ "\""
    else "-o \"gdrive_" ++ file_id ++ "\""
  (cookie_header, output_option)

/-- The per-entry filename sanitization inside `download_folder` (line 665):
same as `sanitizeSingle` but with NO `':'` replacement. -/
def sanitizeFolder (filename : String) : String :=
  pyReplace (pyReplace (pyReplace (pyReplace filename "\"" "\\\"") "*" "_") "?" "_")
    "|" "_"

/-- The `filename_to_use` computation of `download_folder` (lines 654-658). -/
def downloadFolderFilenameToUse (extracted : Option String) (file_name file_id : String) :
    String :=
  let f := if strTruthy extracted then extracted.getD "" else file_name
  if f.data.isEmpty || (pyStrip f).data.isEmpty then "gdrive_file_" ++ file_id else f

/-! ## Folder name and folder enumeration -/

/-- `get_folder_name` (lines 174-208), with the folder-page and iframe
fetches abstracted into body arguments. -/
def get_folder_name (folder_id : String) (pageBody iframeBody : String) : String :=
  match reSearch titleGDPat pageBody.data with
  | some caps => pyStrip (capGet caps 1)
  | none =>
    match reSearch ogTitlePat pageBody.data with
    | some caps => pyStrip (capGet caps 1)
    | none =>
      match reSearch iframeTitlePat iframeBody.data with
      | some caps =>
        let title := pyStrip (capGet caps 1)
        if title ≠ "Google Drive: Sign-in" then title
        else "gdrive_folder_" ++ folder_id
      | none => "gdrive_folder_" ++ folder_id

/-- `get_files_from_iframe` (lines 386-461), given the iframe response.
The `except` fallback to `extract_files_from_iframe` is unreachable in the
pure model (the wrapped regex operations cannot raise), so it is omitted. -/
def get_files_from_iframe (status : Nat) (body : String) : List DriveFile :=
  if status = 200 then
    let entries := reFindAll flipEntryFullPat body.data
    let file_entries := entries.map (fun caps =>
      ({ id := capGet caps 2, name := pyStrip (capGet caps 3), type := "file" } : DriveFile))
    if file_entries.isEmpty then
      let file_ids := (reFindAll fileHrefPat body.data).map (fun caps => capGet caps 1)
      let file_names := (reFindAll flipTitlePat body.data).map (fun caps => capGet caps 1)
      if file_ids.length = file_names.length then
        (file_ids.zip file_names).map (fun p =>
          ({ id := p.1, name := pyStrip p.2, type := "file" } : DriveFile))
      else
        file_ids.enum.map (fun p =>
          ({ id := p.2,
             name := pyStrip (file_names.getD p.1 ("file_" ++ toString (p.1 + 1))),
             type := "file" } : DriveFile))
    else file_entries
  else []

/-- `get_folder_contents_api` (lines 323-384): the request, API-key scraping
and random User-Agent do not influence the parsed result; the endpoint's
parsed JSON `items` array (or `none` for a request error / missing key) is
the abstraction. -/
def get_folder_contents_api (items : Option (List ApiItem)) : List DriveFile :=
  match items with
  | some its => its.map (fun it =>
      ({ id := it.id, name := it.title,
         type := if it.mimeType = "application/vnd.google-apps.folder" then "folder"
           else "file" } : DriveFile))
  | none => []

/-- The anchored `re.sub(r'^Google Drive (File|Folder): ', '', name)` of
`extract_file_data` method 2 (anchored, so at most one removal, at the start). -/
def cleanGDPrefix (s : String) : String :=
  if ("Google Drive File: ".data).isPrefixOf s.data then
    String.mk (s.data.drop ("Google Drive File: ".data).length)
  else if ("Google Drive Folder: ".data).isPrefixOf s.data then
    String.mk (s.data.drop ("Google Drive Folder: ".data).length)
  else s

/-- `extract_file_data` (lines 252-321): the union of the four extraction
heuristics, in source order. -/
def extract_file_data (content : String) : List DriveFile :=
  let m1 : List DriveFile :=
    match reSearch driveIvdPat content.data with
    | some caps =>
      let data_str := pyReplace (capGet caps 1) "\\\\" "\\"
      (reFindAll ivdEntryPat data_str.data).filterMap (fun ec =>
        let file_id := capGet ec 1
        let file_type := capGet ec 2
        match reSearch (ivdNamePat file_id) data_str.data with
        | some nc => some
            ({ id := file_id, name := capGet nc 1,
               type := if subStr "folder" (pyLower file_type) then "folder" else "file" }
             : DriveFile)
        | none => none)
    | none => []
  let m2 : List DriveFile :=
    (reFindAll dataIdPat content.data).filterMap (fun c =>
      let file_id := capGet c 1
      let file_type := capGet c 2
      let file_name := capGet c 3
      if 25 ≤ file_id.length then
        some ({ id := file_id, name := cleanGDPrefix file_name,
                type := if subStr "folder" (pyLower file_type) then "folder" else "file" }
              : DriveFile)
      else none)
  let m3 : List DriveFile :=
    (reFindAll ariaHrefPat content.data).map (fun c =>
      let label := capGet c 1
      let file_id := capGet c 2
      let isFolderEntry := subStr "folders" (pyLower label) || subStr "/folders/" content
      ({ id := file_id,
         name := pyReplace (pyReplace label "Google Drive File: " "")
           "Google Drive Folder: " "",
         type := if isFolderEntry then "folder" else "file" } : DriveFile))
  let m4 : List DriveFile :=
    (reFindAll bracketPairPat content.data).map (fun c =>
      let file_id := capGet c 1
      let file_name := capGet c 2
      let isFolderEntry := subStr ("\"" ++ file_id ++ "\",[\"folder") content
        || subStr ("\"" ++ file_id ++ "\",[[\"folder") content
      ({ id := file_id, name := file_name,
         type := if isFolderEntry then "folder" else "file" } : DriveFile))
  m1 ++ m2 ++ m3 ++ m4

/-- The name cleanup of the dedup loop (lines 523-524): artifact `re.sub`
followed by `rstrip('",')`. -/
def cleanFileName (file_name : String) : String :=
  rstripQuoteComma (reDeleteAll nameArtifactPat file_name)

/-- The dedup/sanitize loop of `list_files_in_folder` (lines 509-533), with
the `seen_ids` set carried as a list (membership only). -/
def dedupLoop : List DriveFile → List String → List DriveFile
  | [], _ => []
  | f :: rest, seen =>
    let file_id := pyStrip f.id
    let file_name := pyStrip f.name
    if file_id.length < 25 || subStr "\",\"" file_id then dedupLoop rest seen
    else
      let file_name := cleanFileName file_name
      if seen.contains file_id then dedupLoop rest seen
      else ({ id := file_id, name := file_name, type := f.type } : DriveFile) ::
        dedupLoop rest (file_id :: seen)

/-- The raw-page-scraping strategy of `list_files_in_folder` (lines 492-507):
scrape the folder page, and retry the alternate URL form if empty. -/
def scrape_files (env : FolderEnv) : List DriveFile :=
  let files := extract_file_data env.scrapeBody
  if files.isEmpty then extract_file_data env.altScrapeBody else files

/-- `list_files_in_folder` (lines 463-548): folder name, then the three
strategies in order (iframe, internal API, raw scraping + dedup loop). -/
def list_files_in_folder (folder_id : String) (env : FolderEnv) :
    List DriveFile × String :=
  let folder_name := get_folder_name folder_id env.namePageBody env.nameIframeBody
  let iframe_files := get_files_from_iframe env.iframeStatus env.iframeBody
  if !iframe_files.isEmpty then (iframe_files, folder_name)
  else
    let api_files := get_folder_contents_api env.apiItems
    if !api_files.isEmpty then (api_files, folder_name)
    else (dedupLoop (scrape_files env) [], folder_name)

/-- The per-entry dispatch of `download_folder` (line 642):
recurse on `"folder"` entries, download otherwise. -/
inductive DownloadAction : Type where
  | recurseSubfolder : DownloadAction
  | downloadFile : DownloadAction
deriving Repr, DecidableEq

/-- `if file_type == "folder": ... else: ...` (download_folder line 642). -/
def downloadEntryAction (f : DriveFile) : DownloadAction :=
  if f.type = "folder" then DownloadAction.recurseSubfolder
  else DownloadAction.downloadFile

/-! ## Download orchestration (retry ladders), with `os.system` abstracted
into an oracle `run : String → Int` from the exact command string to its
exit code.  The Unix command-construction branches are modeled. -/

/-- The fixed reliability options appended by both paths. -/
def relOptions : String :=
  "--max-tries=5 --retry-wait=5 --max-file-not-found=5 --connect-timeout=60"

/-- The alternative explicit-confirm URL used by the retry ladders
(`https://drive.google.com/uc?id={id}&export=download&confirm=t`). -/
def altConfirmUrl (drive_id : String) : String :=
  "https://drive.google.com/uc?id=" ++ drive_id ++ "&export=download&confirm=t"

/-- gcd.py single-file command (Unix branch, line 244):
`aria2c {args} {rel} {out} --header="Cookie: {cookie}" '{url}'`. -/
def unixFileCmd (args rel out cookie url : String) : String :=
  "aria2c " ++ args ++ " " ++ rel ++ " " ++ out ++ " --header=\"Cookie: " ++ cookie
    ++ "\" \x27" ++ url ++ "\x27"

/-- gcd.py third-attempt command without the output-filename option (line 278). -/
def unixNoOutCmd (args rel cookie url : String) : String :=
  "aria2c " ++ args ++ " " ++ rel ++ " --header=\"Cookie: " ++ cookie
    ++ "\" \x27" ++ url ++ "\x27"

/-- The single-file retry ladder of `gcd.py main` (lines 254-294): original
URL, then the explicit-confirm variant, then the original URL without the
filename option; `true` = the entry is reported downloaded, `false` = final
failure (`sys.exit(1)`). -/
def mainSingleFileDownload (run : String → Int) (args out cookie url drive_id : String) :
    Bool :=
  if run (unixFileCmd args relOptions out cookie url) = 0 then true
  else if run (unixFileCmd args relOptions out cookie (altConfirmUrl drive_id)) = 0 then
    true
  else if run (unixNoOutCmd args relOptions cookie url) = 0 then true
  else false

/-- download_folder per-entry command (line 680):
`aria2c {args} {rel} {out} --header="Cookie: {cookie}" "{url}"`. -/
def folderFileCmd (args out cookie url : String) : String :=
  "aria2c " ++ args ++ " " ++ relOptions ++ " " ++ out ++ " --header=\"Cookie: "
    ++ cookie ++ "\" \"" ++ url ++ "\""

/-- The Unix path substitution of download_folder (line 689):
`cmd.replace('aria2c', f'"{aria2c_path}"')`, replacing every occurrence. -/
def unixFolderCmd (aria2c_path cmd : String) : String :=
  pyReplace cmd "aria2c" ("\"" ++ aria2c_path ++ "\"")

/-- The per-entry retry ladder of `download_folder` (lines 684-715, Unix
branch): the resolved URL, then the explicit-confirm variant — and nothing
else; `true` = the entry counts as a success. -/
def downloadFolderEntryAttempt (run : String → Int)
    (aria2c_path args out cookie url file_id : String) : Bool :=
  if run (unixFolderCmd aria2c_path (folderFileCmd args out cookie url)) = 0 then true
  else
    run (unixFolderCmd aria2c_path (folderFileCmd args out cookie (altConfirmUrl file_id)))
      = 0

/-! ## Helper definitions used only by the proofs -/

/-- The cleaning/filtering part of one dedup-loop step, as a partial map:
`none` exactly when the loop `continue`s on a bad id. -/
def cleanKeep (f : DriveFile) : Option DriveFile :=
  let file_id := pyStrip f.id
  if file_id.length < 25 || subStr "\",\"" file_id then none
  else some ({ id := file_id, name := cleanFileName (pyStrip f.name), type := f.type }
    : DriveFile)

/-- Keep-first deduplication by id over an already-cleaned list. -/
def dedupFirst : List DriveFile → List String → List DriveFile
  | [], _ => []
  | f :: rest, seen =>
    if seen.contains f.id then dedupFirst rest seen
    else f :: dedupFirst rest (f.id :: seen)

/-! ## Concrete environments used by witnesses and counterexamples -/

/-- Interstitial response with confirm token `T1` (no cookies, failed view fetch). -/
def envC1 : FileEnv :=
  { viewStatus := 404, viewBody := "", cookies := []
    dlBody := "Google Drive can\x27t scan this file for viruses<form id=\"download-form\" action=\"https://x\"<input type=\"hidden\" name=\"confirm\" value=\"T1\"" }

/-! ## Helper lemmas -/

set_option maxRecDepth 100000

/-- The synthesized confirm URL is never the original export URL, whatever the
token and id: the two differ at character index 28 (`e` vs `i`). -/
theorem confirmUrl_ne_exportUrl (T file_id : String) :
    confirmUrl T file_id ≠ exportUrl file_id := by
  intro h
  have h2 := congrArg (fun s : String => s.data[28]?) h
  simp only [confirmUrl, exportUrl, String.data_append, List.append_assoc] at h2
  rw [List.getElem?_append_left (by decide), List.getElem?_append_left (by decide)] at h2
  exact absurd h2 (by decide)

/-- Characters of a replaced string come from the input or the replacement. -/
theorem mem_pyReplaceAux {c : Char} {pat repl : List Char} :
    ∀ (fuel : Nat) (s : List Char), c ∈ pyReplaceAux pat repl fuel s → c ∈ s ∨ c ∈ repl := by
  intro fuel
  induction fuel with
  | zero => exact fun s h => Or.inl h
  | succ n ih =>
    intro s h
    match s with
    | [] => simp only [pyReplaceAux] at h; exact absurd h (List.not_mem_nil c)
    | a :: rest =>
      simp only [pyReplaceAux] at h
      by_cases hp : pat.isPrefixOf (a :: rest)
      · rw [if_pos hp] at h
        rcases List.mem_append.mp h with h1 | h1
        · exact Or.inr h1
        · rcases ih _ h1 with h2 | h2
          · exact Or.inl (List.mem_of_mem_drop h2)
          · exact Or.inr h2
      · rw [if_neg hp] at h
        rcases List.mem_cons.mp h with h1 | h1
        · exact Or.inl (h1 ▸ List.mem_cons_self a rest)
        · rcases ih _ h1 with h2 | h2
          · exact Or.inl (List.mem_cons_of_mem a h2)
          · exact Or.inr h2

/-- Characters of `pyReplace` output come from the input or the replacement. -/
theorem mem_data_pyReplace {c : Char} {s pat repl : String}
    (h : c ∈ (pyReplace s pat repl).data) : c ∈ s.data ∨ c ∈ repl.data := by
  unfold pyReplace at h
  by_cases hp : pat.data.isEmpty
  · rw [if_pos hp] at h; exact Or.inl h
  · rw [if_neg hp] at h; exact mem_pyReplaceAux _ _ h

/-- Replacing the single character `a` leaves no `a` when the replacement
contains none and the fuel covers the input. -/
theorem not_mem_pyReplaceAux_single {a : Char} {repl : List Char} (hrep : a ∉ repl) :
    ∀ (fuel : Nat) (s : List Char), s.length ≤ fuel → a ∉ pyReplaceAux [a] repl fuel s := by
  intro fuel
  induction fuel with
  | zero =>
    intro s hs
    rw [List.length_eq_zero.mp (Nat.le_zero.mp hs)]
    simp [pyReplaceAux]
  | succ n ih =>
    intro s hs
    match s with
    | [] => simp [pyReplaceAux]
    | b :: rest =>
      simp only [pyReplaceAux]
      by_cases hp : [a].isPrefixOf (b :: rest)
      · rw [if_pos hp]
        intro hmem
        rcases List.mem_append.mp hmem with h1 | h1
        · exact hrep h1
        · exact ih rest (Nat.le_of_succ_le_succ hs) h1
      · rw [if_neg hp]
        intro hmem
        rcases List.mem_cons.mp hmem with h1 | h1
        · exact hp (by simp [List.isPrefixOf, h1])
        · exact ih rest (Nat.le_of_succ_le_succ hs) h1

/-- String version of `not_mem_pyReplaceAux_single`. -/
theorem not_mem_pyReplace_single {a : Char} (s : String) {pat repl : String}
    (hpat : pat.data = [a]) (hrep : a ∉ repl.data) :
    a ∉ (pyReplace s pat repl).data := by
  unfold pyReplace
  rw [hpat]
  simp only [List.isEmpty_cons, Bool.false_eq_true, if_false]
  exact not_mem_pyReplaceAux_single hrep _ _ (Nat.le_succ _)

/-- Replacing a single character absent from the input is the identity. -/
theorem pyReplaceAux_id_of_not_mem {a : Char} {repl : List Char} :
    ∀ (fuel : Nat) (s : List Char), a ∉ s → pyReplaceAux [a] repl fuel s = s := by
  intro fuel
  induction fuel with
  | zero => intro s _; rfl
  | succ n ih =>
    intro s hs
    match s with
    | [] => rfl
    | b :: rest =>
      have hab : ¬ [a].isPrefixOf (b :: rest) := by
        intro hp
        exact hs (by simp_all [List.isPrefixOf])
      simp only [pyReplaceAux, if_neg hab]
      rw [ih rest (fun h => hs (List.mem_cons_of_mem b h))]

/-- String version of `pyReplaceAux_id_of_not_mem`. -/
theorem pyReplace_id_of_not_mem {a : Char} (s : String) {pat repl : String}
    (hpat : pat.data = [a]) (h : a ∉ s.data) : pyReplace s pat repl = s := by
  unfold pyReplace
  rw [hpat]
  simp only [List.isEmpty_cons, Bool.false_eq_true, if_false]
  rw [pyReplaceAux_id_of_not_mem _ _ h]

/-- If the iframe strategy yields entries, `list_files_in_folder` returns
exactly them (with the independently obtained folder name). -/
theorem listFiles_of_iframe_ne (folder_id : String) (env : FolderEnv)
    (h : get_files_from_iframe env.iframeStatus env.iframeBody ≠ []) :
    list_files_in_folder folder_id env =
      (get_files_from_iframe env.iframeStatus env.iframeBody,
       get_folder_name folder_id env.namePageBody env.nameIframeBody) := by
  have e : (get_files_from_iframe env.iframeStatus env.iframeBody).isEmpty = false :=
    List.isEmpty_eq_false.mpr h
  simp [list_files_in_folder, e]

/-- If the iframe strategy is empty and the API strategy yields entries,
`list_files_in_folder` returns the API entries. -/
theorem listFiles_of_api_ne (folder_id : String) (env : FolderEnv)
    (h1 : get_files_from_iframe env.iframeStatus env.iframeBody = [])
    (h2 : get_folder_contents_api env.apiItems ≠ []) :
    list_files_in_folder folder_id env =
      (get_folder_contents_api env.apiItems,
       get_folder_name folder_id env.namePageBody env.nameIframeBody) := by
  have e1 : (get_files_from_iframe env.iframeStatus env.iframeBody).isEmpty = true :=
    List.isEmpty_iff.mpr h1
  have e2 : (get_folder_contents_api env.apiItems).isEmpty = false :=
    List.isEmpty_eq_false.mpr h2
  simp [list_files_in_folder, e1, e2]

/-- If both the iframe and API strategies are empty, `list_files_in_folder`
returns the deduplicated raw-scraping result. -/
theorem listFiles_of_scrape (folder_id : String) (env : FolderEnv)
    (h1 : get_files_from_iframe env.iframeStatus env.iframeBody = [])
    (h2 : get_folder_contents_api env.apiItems = []) :
    list_files_in_folder folder_id env =
      (dedupLoop (scrape_files env) [],
       get_folder_name folder_id env.namePageBody env.nameIframeBody) := by
  have e1 : (get_files_from_iframe env.iframeStatus env.iframeBody).isEmpty = true :=
    List.isEmpty_iff.mpr h1
  have e2 : (get_folder_contents_api env.apiItems).isEmpty = true :=
    List.isEmpty_iff.mpr h2
  simp [list_files_in_folder, e1, e2]

/-- Every entry built by `get_files_from_iframe` has type `"file"`:
all three extraction paths hardcode it. -/
theorem iframe_entries_type_file (status : Nat) (body : String) (f : DriveFile)
    (hf : f ∈ get_files_from_iframe status body) : f.type = "file" := by
  unfold get_files_from_iframe at hf
  by_cases h200 : status = 200
  · rw [if_pos h200] at hf
    dsimp only at hf
    split at hf
    · split at hf
      · rcases List.mem_map.mp hf with ⟨x, -, rfl⟩; rfl
      · rcases List.mem_map.mp hf with ⟨x, -, rfl⟩; rfl
    · rcases List.mem_map.mp hf with ⟨x, -, rfl⟩; rfl
  · rw [if_neg h200] at hf
    exact absurd hf (List.not_mem_nil f)

/-- The dedup loop is the keep-first dedup of the cleaned-and-filtered input. -/
theorem dedupLoop_eq (files : List DriveFile) : ∀ seen : List String,
    dedupLoop files seen = dedupFirst (files.filterMap cleanKeep) seen := by
  induction files with
  | nil => intro seen; rfl
  | cons f rest ih =>
    intro seen
    simp only [dedupLoop, List.filterMap_cons, cleanKeep]
    by_cases hg : (pyStrip f.id).length < 25 || subStr "\",\"" (pyStrip f.id)
    · simp only [hg, if_true]
      exact ih seen
    · simp only [hg, if_false]
      by_cases hc : seen.contains (pyStrip f.id)
      · simp [dedupFirst, hc, ih]
      · simp [dedupFirst, hc, ih]

/-- Entries of the keep-first dedup come from the input. -/
theorem mem_of_mem_dedupFirst : ∀ (l : List DriveFile) (seen : List String)
    (f : DriveFile), f ∈ dedupFirst l seen → f ∈ l := by
  intro l
  induction l with
  | nil => intro seen f h; exact absurd h (List.not_mem_nil f)
  | cons g rest ih =>
    intro seen f h
    simp only [dedupFirst] at h
    by_cases hc : seen.contains g.id
    · rw [if_pos hc] at h
      exact List.mem_cons_of_mem g (ih _ f h)
    · rw [if_neg hc] at h
      rcases List.mem_cons.mp h with h1 | h1
      · exact h1 ▸ List.mem_cons_self g rest
      · exact List.mem_cons_of_mem g (ih _ f h1)

/-- The keep-first dedup yields pairwise-distinct ids, none of them in `seen`. -/
theorem dedupFirst_nodup : ∀ (l : List DriveFile) (seen : List String),
    ((dedupFirst l seen).map (fun f => f.id)).Nodup ∧
    (∀ f ∈ dedupFirst l seen, f.id ∉ seen) := by
  intro l
  induction l with
  | nil =>
    intro seen
    exact ⟨List.nodup_nil, by simp [dedupFirst]⟩
  | cons g rest ih =>
    intro seen
    simp only [dedupFirst]
    by_cases hc : seen.contains g.id
    · rw [if_pos hc]
      exact ih seen
    · rw [if_neg hc]
      have hg : g.id ∉ seen := by simpa using hc
      obtain ⟨ihn, ihs⟩ := ih (g.id :: seen)
      constructor
      · simp only [List.map_cons, List.nodup_cons]
        refine ⟨fun hmem => ?_, ihn⟩
        rcases List.mem_map.mp hmem with ⟨f, hf, hfid⟩
        exact ihs f hf (hfid ▸ List.mem_cons_self g.id seen)
      · intro f hf
        rcases List.mem_cons.mp hf with h1 | h1
        · exact h1 ▸ hg
        · exact fun hmem => ihs f h1 (List.mem_cons_of_mem _ hmem)

/-- Keep-first: every output entry is the first input entry with its id. -/
theorem dedupFirst_first_wins : ∀ (l : List DriveFile) (seen : List String)
    (f : DriveFile), f ∈ dedupFirst l seen →
    ∃ l1 l2, l = l1 ++ f :: l2 ∧ (∀ g ∈ l1, g.id ≠ f.id) := by
  intro l
  induction l with
  | nil => intro seen f h; exact absurd h (List.not_mem_nil f)
  | cons g rest ih =>
    intro seen f h
    simp only [dedupFirst] at h
    by_cases hc : seen.contains g.id
    · rw [if_pos hc] at h
      obtain ⟨l1, l2, hl, hprev⟩ := ih seen f h
      have hfid : f.id ∉ seen := (dedupFirst_nodup rest seen).2 f h
      have hgid : g.id ∈ seen := by simpa using hc
      refine ⟨g :: l1, l2, by rw [hl]; rfl, ?_⟩
      intro x hx
      rcases List.mem_cons.mp hx with h1 | h1
      · subst h1
        exact fun he => hfid (he ▸ hgid)
      · exact hprev x h1
    · rw [if_neg hc] at h
      rcases List.mem_cons.mp h with h1 | h1
      · exact ⟨[], rest, by rw [h1]; rfl, by simp⟩
      · obtain ⟨l1, l2, hl, hprev⟩ := ih (g.id :: seen) f h1
        have hfid : f.id ∉ g.id :: seen := (dedupFirst_nodup rest _).2 f h1
        refine ⟨g :: l1, l2, by rw [hl]; rfl, ?_⟩
        intro x hx
        rcases List.mem_cons.mp hx with h2 | h2
        · subst h2
          exact fun he => hfid (he ▸ List.mem_cons_self x.id seen)
        · exact hprev x h2

/-- Survivors of the cleaning filter have ids of length at least 25. -/
theorem cleanKeep_id_length {g f : DriveFile} (h : cleanKeep g = some f) :
    25 ≤ f.id.length := by
  unfold cleanKeep at h
  by_cases hg : (pyStrip g.id).length < 25 || subStr "\",\"" (pyStrip g.id)
  · rw [if_pos hg] at h
    exact absurd h (by simp)
  · rw [if_neg hg] at h
    simp only [Bool.or_eq_true, not_or, decide_eq_true_eq] at hg
    injection h with h
    rw [← h]
    exact Nat.not_lt.mp (fun hlt => hg.1 (by simpa using hlt))

/-! ## Claims -/

/-- C1: whenever the download-page body contains the virus-scan warning string,
a form action, and a hidden confirm token `T`, the resolver returns the
confirm URL embedding exactly `T` and the given file id, and that URL is
never the original export-download URL. -/
theorem c1_interstitial_token (file_id : String) (env : FileEnv) (T : String)
    (capsF capsC : Caps)
    (hw : subStr virusWarning env.dlBody = true)
    (hf : reSearch formActionPat env.dlBody.data = some capsF)
    (hc : reSearch confirmValuePat env.dlBody.data = some capsC)
    (hT : capGet capsC 1 = T) :
    (get_download_url_and_filename file_id env).1 = confirmUrl T file_id ∧
    (get_download_url_and_filename file_id env).1 ≠ exportUrl file_id := by
  have hmain : (get_download_url_and_filename file_id env).1 = confirmUrl T file_id := by
    simp only [get_download_url_and_filename, hw, hf, hc, hT, if_true]
  exact ⟨hmain, hmain ▸ confirmUrl_ne_exportUrl T file_id⟩

/-- C1 witness: the interstitial body of `envC1` carries token `T1`; the
resolved URL embeds `confirm=T1&id=FID1` and is not the export URL. -/
theorem c1_interstitial_token_witness :
    (get_download_url_and_filename "FID1" envC1).1
      = "https://drive.google.com/uc?export=download&confirm=T1&id=FID1" ∧
    (get_download_url_and_filename "FID1" envC1).1 ≠ exportUrl "FID1" := by
  have h := c1_interstitial_token "FID1" envC1 "T1" [(1, "https://x")] [(1, "T1")]
    (by decide) (by decide) (by decide) (by decide)
  exact ⟨h.1.trans (by decide), h.2⟩

/-- Interstitial response carrying body token `TA` while the session cookies
carry a `download_warning_` cookie with the different value `TB`. -/
def envC4 : FileEnv :=
  { viewStatus := 404, viewBody := "", cookies := [("download_warning_abc", "TB")]
    dlBody := "Google Drive can\x27t scan this file for viruses<form id=\"download-form\" action=\"https://x\"<input type=\"hidden\" name=\"confirm\" value=\"TA\"" }

/-- Response with no interstitial markers but a `download_warning_` cookie. -/
def envC4w : FileEnv :=
  { viewStatus := 404, viewBody := "", cookies := [("download_warning_x", "V9")]
    dlBody := "" }

/-- C4 counterexample: the cookies contain a `download_warning_` entry with
value `TB`, yet the returned URL embeds the interstitial body token `TA`,
not `TB` — the claim fails as stated. -/
theorem c4_cookie_token_counterexample :
    downloadWarningConfirm envC4.cookies = some "TB" ∧
    (get_download_url_and_filename "FID4" envC4).1
      = "https://drive.google.com/uc?export=download&confirm=TA&id=FID4" ∧
    (get_download_url_and_filename "FID4" envC4).1 ≠ confirmUrl "TB" "FID4" ∧
    subStr "confirm=TB" (get_download_url_and_filename "FID4" envC4).1 = false :=
  ⟨by decide, by decide, by decide, by decide⟩

/-- C4 amended: when the interstitial branch does not return first (the body
lacks the warning string, or the form-action or confirm-token extraction
fails) and some cookie name starts with `download_warning_`, the returned URL
embeds the first such cookie's value as the confirm parameter. -/
theorem c4_cookie_token_amended (file_id : String) (env : FileEnv) (v : String)
    (hnb : subStr virusWarning env.dlBody = false ∨
      reSearch formActionPat env.dlBody.data = none ∨
      reSearch confirmValuePat env.dlBody.data = none)
    (hv : downloadWarningConfirm env.cookies = some v) :
    (get_download_url_and_filename file_id env).1 = confirmUrl v file_id := by
  simp only [get_download_url_and_filename]
  by_cases hw : subStr virusWarning env.dlBody
  · simp only [hw, if_true]
    rcases hnb with h | h | h
    · exact absurd hw (by simp [h])
    · rw [h]
      cases hc2 : reSearch confirmValuePat env.dlBody.data <;> simp [hv]
    · rw [h]
      cases hf2 : reSearch formActionPat env.dlBody.data <;> simp [hv]
  · simp only [Bool.not_eq_true] at hw
    simp [hw, hv]

/-- C4 amended witness: no interstitial markers, one warning cookie `V9`. -/
theorem c4_cookie_token_amended_witness :
    (get_download_url_and_filename "FID4W" envC4w).1
      = "https://drive.google.com/uc?export=download&confirm=V9&id=FID4W" :=
  (c4_cookie_token_amended "FID4W" envC4w "V9" (Or.inl (by decide)) (by decide)).trans
    (by decide)

/-- Interstitial response with confirm token `T5`. -/
def envC5 : FileEnv :=
  { viewStatus := 404, viewBody := "", cookies := []
    dlBody := "Google Drive can\x27t scan this file for viruses<form id=\"download-form\" action=\"https://y\"<input type=\"hidden\" name=\"confirm\" value=\"T5\"" }

/-- C5: the URL synthesized for the interstitial is exactly the confirm URL
built from the token and the id — it embeds NO freshly generated unique
value (the source's comment announces a UUID for cache busting, but the
`uuid` module, though imported, is never used), so any two resolutions of
the same file against identical remote responses yield this same URL. -/
theorem c5_no_cache_busting_value :
    (get_download_url_and_filename "FID5" envC5).1
      = "https://drive.google.com/uc?export=download&confirm=T5&id=FID5" := by
  decide

/-- A file-view body matching pattern 1 (with whitespace-padded capture)
and pattern 3 simultaneously. -/
def bodyC9 : String :=
  "<meta property=\"og:title\" content=\" A \">x\"title\":\"B\""

/-- C9 counterexample: `bodyC9` matches patterns 1 and 3, pattern 1's capture
is `" A "`, but the extracted filename is the stripped `"A"` — the extracted
filename is not the raw capture. -/
theorem c9_pattern_priority_counterexample :
    reSearch ogTitleViewPat bodyC9.data = some [(1, " A ")] ∧
    reSearch jsonTitlePat bodyC9.data = some [(1, "B")] ∧
    firstPatternMatch filename_patterns_view bodyC9 = some "A" ∧
    ("A" : String) ≠ " A " :=
  ⟨by decide, by decide, by decide, by decide⟩

/-- C9 amended: extraction evaluates the three patterns in the fixed order
og:title, page title, embedded JSON title, and returns the first match's
capture stripped of leading/trailing whitespace; in particular for a body
matching both pattern 1 and pattern 3, the result is pattern 1's stripped
capture. -/
theorem c9_pattern_priority_amended (body : String) :
    (∀ caps, reSearch ogTitleViewPat body.data = some caps →
      firstPatternMatch filename_patterns_view body = some (pyStrip (capGet caps 1))) ∧
    (∀ caps, reSearch ogTitleViewPat body.data = none →
      reSearch titleGDPat body.data = some caps →
      firstPatternMatch filename_patterns_view body = some (pyStrip (capGet caps 1))) ∧
    (∀ caps, reSearch ogTitleViewPat body.data = none →
      reSearch titleGDPat body.data = none →
      reSearch jsonTitlePat body.data = some caps →
      firstPatternMatch filename_patterns_view body = some (pyStrip (capGet caps 1))) := by
  refine ⟨fun caps h1 => ?_, fun caps h1 h2 => ?_, fun caps h1 h2 h3 => ?_⟩
  · simp only [filename_patterns_view, firstPatternMatch, h1]
  · simp only [filename_patterns_view, firstPatternMatch, h1, h2]
  · simp only [filename_patterns_view, firstPatternMatch, h1, h2, h3]

/-- C9 amended witness: on `bodyC9` (matching patterns 1 and 3), extraction
returns pattern 1's stripped capture `A`. -/
theorem c9_pattern_priority_amended_witness :
    firstPatternMatch filename_patterns_view bodyC9 = some "A" :=
  ((c9_pattern_priority_amended bodyC9).1 [(1, " A ")] (by decide)).trans (by decide)

/-- C6 counterexample: on the folder-walk path a colon survives sanitization
untouched, and on both paths a quote is escaped (`\"`), not removed — the
filename actually used is not free of the claimed character set. -/
theorem c6_sanitized_filename_counterexample :
    sanitizeFolder (downloadFolderFilenameToUse (some "a:b") "n" "fid") = "a:b" ∧
    ':' ∈ (sanitizeFolder (downloadFolderFilenameToUse (some "a:b") "n" "fid")).data ∧
    sanitizeSingle "a\"b" = "a\\\"b" ∧
    '"' ∈ (sanitizeSingle "a\"b").data :=
  ⟨by decide, by decide, by decide, by decide⟩

/-- C6 amended: the filename used is the source-reported name with `*`, `?`,
`|` replaced by `_` on both paths, `:` replaced by `_` on the single-file
path only (`build_aria2c_options`; the folder-walk path leaves `:` alone),
and `"` escaped to `\"` rather than removed; a name containing none of
these characters is used unchanged. -/
theorem c6_sanitized_filename_amended (name : String) :
    ':' ∉ (sanitizeSingle name).data ∧ '*' ∉ (sanitizeSingle name).data ∧
    '?' ∉ (sanitizeSingle name).data ∧ '|' ∉ (sanitizeSingle name).data ∧
    '*' ∉ (sanitizeFolder name).data ∧ '?' ∉ (sanitizeFolder name).data ∧
    '|' ∉ (sanitizeFolder name).data ∧
    ((∀ c ∈ name.data, c ≠ '"' ∧ c ≠ '*' ∧ c ≠ '?' ∧ c ≠ '|' ∧ c ≠ ':') →
      sanitizeSingle name = name ∧ sanitizeFolder name = name) := by
  have hq : (("\"" : String)).data = ['"'] := by decide
  have hs : (("*" : String)).data = ['*'] := by decide
  have hqu : (("?" : String)).data = ['?'] := by decide
  have hpi : (("|" : String)).data = ['|'] := by decide
  have hco : ((":" : String)).data = [':'] := by decide
  have hu1 : ':' ∉ (("_" : String)).data := by decide
  have hu2 : '*' ∉ (("_" : String)).data := by decide
  have hu3 : '?' ∉ (("_" : String)).data := by decide
  have hu4 : '|' ∉ (("_" : String)).data := by decide
  refine ⟨?_, ?_, ?_, ?_, ?_, ?_, ?_, ?_⟩
  · exact not_mem_pyReplace_single _ hco hu1
  · intro h
    unfold sanitizeSingle at h
    rcases mem_data_pyReplace h with h | h
    · rcases mem_data_pyReplace h with h | h
      · rcases mem_data_pyReplace h with h | h
        · exact not_mem_pyReplace_single _ hs hu2 h
        · exact hu2 h
      · exact hu2 h
    · exact hu2 h
  · intro h
    unfold sanitizeSingle at h
    rcases mem_data_pyReplace h with h | h
    · rcases mem_data_pyReplace h with h | h
      · exact not_mem_pyReplace_single _ hqu hu3 h
      · exact hu3 h
    · exact hu3 h
  · intro h
    unfold sanitizeSingle at h
    rcases mem_data_pyReplace h with h | h
    · exact not_mem_pyReplace_single _ hpi hu4 h
    · exact hu4 h
  · intro h
    unfold sanitizeFolder at h
    rcases mem_data_pyReplace h with h | h
    · rcases mem_data_pyReplace h with h | h
      · exact not_mem_pyReplace_single _ hs hu2 h
      · exact hu2 h
    · exact hu2 h
  · intro h
    unfold sanitizeFolder at h
    rcases mem_data_pyReplace h with h | h
    · exact not_mem_pyReplace_single _ hqu hu3 h
    · exact hu3 h
  · intro h
    unfold sanitizeFolder at h
    exact not_mem_pyReplace_single _ hpi hu4 h
  · intro hfree
    have h1 : pyReplace name "\"" "\\\"" = name :=
      pyReplace_id_of_not_mem _ hq (fun hm => ((hfree _ hm).1 rfl))
    have h2 : pyReplace name "*" "_" = name :=
      pyReplace_id_of_not_mem _ hs (fun hm => ((hfree _ hm).2.1 rfl))
    have h3 : pyReplace name "?" "_" = name :=
      pyReplace_id_of_not_mem _ hqu (fun hm => ((hfree _ hm).2.2.1 rfl))
    have h4 : pyReplace name "|" "_" = name :=
      pyReplace_id_of_not_mem _ hpi (fun hm => ((hfree _ hm).2.2.2.1 rfl))
    have h5 : pyReplace name ":" "_" = name :=
      pyReplace_id_of_not_mem _ hco (fun hm => ((hfree _ hm).2.2.2.2 rfl))
    constructor
    · unfold sanitizeSingle
      rw [h1, h2, h3, h4, h5]
    · unfold sanitizeFolder
      rw [h1, h2, h3, h4]

/-- C6 amended witness: `:` is gone after the single-file sanitizer on a
concrete name, and a clean name passes through the folder sanitizer
unchanged. -/
theorem c6_sanitized_filename_amended_witness :
    ':' ∉ (sanitizeSingle "x:y").data ∧ sanitizeFolder "plain.txt" = "plain.txt" :=
  ⟨(c6_sanitized_filename_amended "x:y").1,
   ((c6_sanitized_filename_amended "plain.txt").2.2.2.2.2.2.2 (by decide)).2⟩

/-- Exit-code oracle: only the no-filename command for `U1` succeeds. -/
def exRunC7 : String → Int := fun cmd =>
  if cmd = unixNoOutCmd "-x8" relOptions "c=1" "U1" then 0 else 1

/-- Exit-code oracle: only the no-filename command for `U7` succeeds. -/
def exRunC7w : String → Int := fun cmd =>
  if cmd = unixNoOutCmd "-s4" relOptions "k=2" "U7" then 0 else 3

/-- C7 counterexample: under an oracle where only the third (no-filename)
attempt exits zero, the single-file path reports success but the per-entry
folder-walk path reports failure — the folder path has no no-filename
attempt, only the single explicit-confirm retry. -/
theorem c7_retry_ladder_counterexample :
    mainSingleFileDownload exRunC7 "-x8" "-o \"f\"" "c=1" "U1" "ID1" = true ∧
    downloadFolderEntryAttempt exRunC7 "/usr/bin/aria2c" "-x8" "-o \"f\"" "c=1" "U1" "ID1"
      = false :=
  ⟨by decide, by decide⟩

/-- C7 amended: the single-file path retries up to two more times (the
explicit-confirm variant, then the no-filename variant), so an entry whose
tool exits non-zero twice and then zero on the third attempt is a success;
the per-entry folder-walk path retries exactly once, with the
explicit-confirm variant only — its success is equivalent to one of its two
commands exiting zero, and no no-filename attempt exists there. -/
theorem c7_retry_ladder_amended (run : String → Int)
    (args out cookie url drive_id aria2c_path : String) :
    (run (unixFileCmd args relOptions out cookie url) ≠ 0 →
     run (unixFileCmd args relOptions out cookie (altConfirmUrl drive_id)) ≠ 0 →
     run (unixNoOutCmd args relOptions cookie url) = 0 →
     mainSingleFileDownload run args out cookie url drive_id = true) ∧
    (downloadFolderEntryAttempt run aria2c_path args out cookie url drive_id = true ↔
     (run (unixFolderCmd aria2c_path (folderFileCmd args out cookie url)) = 0 ∨
      run (unixFolderCmd aria2c_path (folderFileCmd args out cookie (altConfirmUrl drive_id)))
        = 0)) := by
  constructor
  · intro h1 h2 h3
    simp [mainSingleFileDownload, h1, h2, h3]
  · unfold downloadFolderEntryAttempt
    by_cases h : run (unixFolderCmd aria2c_path (folderFileCmd args out cookie url)) = 0
    · simp [h]
    · simp [h]

/-- C7 amended witness: non-zero, non-zero, then zero on the no-filename
attempt yields success on the single-file path. -/
theorem c7_retry_ladder_amended_witness :
    mainSingleFileDownload exRunC7w "-s4" "-o \"g\"" "k=2" "U7" "ID7" = true :=
  (c7_retry_ladder_amended exRunC7w "-s4" "-o \"g\"" "k=2" "U7" "ID7" "/a/aria2c").1
    (by decide) (by decide) (by decide)

/-- One iframe list entry (matched by method 1 of `get_files_from_iframe`). -/
def iframeBlk (eid n : String) : String :=
  "<div class=\"flip-entry-v\"href=\"https://drive.google.com/file/d/" ++ eid
    ++ "/f<div class=\"flip-entry-title\">" ++ n ++ "</div>"

/-- One strategy-3 entry (matched by method 2 of `extract_file_data`). -/
def scrapeBlk (eid n : String) : String :=
  "data-id=\"" ++ eid ++ "\"x data-target=\"file\"y aria-label=\"" ++ n ++ "\">"

/-- Folder whose iframe view lists three entries; the API and scrape fields
deliberately hold content that would yield entries if those strategies ran. -/
def envC8 : FolderEnv :=
  { namePageBody := "", nameIframeBody := "", iframeStatus := 200
    iframeBody := iframeBlk "AAA1" "P1" ++ iframeBlk "BBB2" "P2" ++ iframeBlk "CCC3" "P3"
    apiItems := some [{ id := "APIID", title := "ApiName", mimeType := "m" }]
    scrapeBody := scrapeBlk "Z234567890123456789012345678" "Zed"
    altScrapeBody := "" }

/-- C8: the strategies run in the fixed order iframe, internal API, raw
scraping, each only if the previous produced zero entries; when the iframe
strategy is non-empty the result is determined by the iframe response alone
(the API and scraping fields of the environment do not appear in it). -/
theorem c8_strategy_order (folder_id : String) (env : FolderEnv) :
    (get_files_from_iframe env.iframeStatus env.iframeBody ≠ [] →
      list_files_in_folder folder_id env =
        (get_files_from_iframe env.iframeStatus env.iframeBody,
         get_folder_name folder_id env.namePageBody env.nameIframeBody)) ∧
    (get_files_from_iframe env.iframeStatus env.iframeBody = [] →
      get_folder_contents_api env.apiItems ≠ [] →
      list_files_in_folder folder_id env =
        (get_folder_contents_api env.apiItems,
         get_folder_name folder_id env.namePageBody env.nameIframeBody)) ∧
    (get_files_from_iframe env.iframeStatus env.iframeBody = [] →
      get_folder_contents_api env.apiItems = [] →
      list_files_in_folder folder_id env =
        (dedupLoop (scrape_files env) [],
         get_folder_name folder_id env.namePageBody env.nameIframeBody)) :=
  ⟨listFiles_of_iframe_ne folder_id env, listFiles_of_api_ne folder_id env,
   listFiles_of_scrape folder_id env⟩

/-- C8 witness: `envC8` yields its three iframe entries even though its API
and scrape fields would produce entries of their own. -/
theorem c8_strategy_order_witness :
    list_files_in_folder "F8" envC8 =
      ([{ id := "AAA1", name := "P1", type := "file" },
        { id := "BBB2", name := "P2", type := "file" },
        { id := "CCC3", name := "P3", type := "file" }], "gdrive_folder_F8") :=
  ((c8_strategy_order "F8" envC8).1 (by decide)).trans (by decide)

/-- Folder whose iframe view lists a single entry. -/
def envC10 : FolderEnv :=
  { namePageBody := "", nameIframeBody := "", iframeStatus := 200
    iframeBody := iframeBlk "WID1" "W1"
    apiItems := none, scrapeBody := "", altScrapeBody := "" }

/-- C10: every entry produced by the iframe strategy has type `"file"` (all
three extraction paths hardcode it), so when this strategy succeeds the
listing contains no folder entry and the folder walk takes the download
branch, never the recursion branch, for each entry. -/
theorem c10_iframe_only_files :
    (∀ (status : Nat) (body : String) (f : DriveFile),
      f ∈ get_files_from_iframe status body → f.type = "file") ∧
    (∀ (folder_id : String) (env : FolderEnv) (f : DriveFile),
      get_files_from_iframe env.iframeStatus env.iframeBody ≠ [] →
      f ∈ (list_files_in_folder folder_id env).1 →
      f.type ≠ "folder" ∧ downloadEntryAction f = DownloadAction.downloadFile) := by
  refine ⟨iframe_entries_type_file, ?_⟩
  intro folder_id env f hne hf
  rw [listFiles_of_iframe_ne folder_id env hne] at hf
  have ht : f.type = "file" := iframe_entries_type_file _ _ f hf
  refine ⟨by rw [ht]; decide, ?_⟩
  unfold downloadEntryAction
  rw [ht, if_neg (by decide)]

/-- C10 witness: the single entry listed through `envC10`'s iframe gets the
download action, not the recursion action. -/
theorem c10_iframe_only_files_witness :
    downloadEntryAction { id := "WID1", name := "W1", type := "file" }
      = DownloadAction.downloadFile :=
  (c10_iframe_only_files.2 "F10" envC10 _ (by decide) (by decide)).2

/-- Folder whose iframe view lists the same id twice (two identical entry
blocks with different display names). -/
def envC2 : FolderEnv :=
  { namePageBody := "", nameIframeBody := "", iframeStatus := 200
    iframeBody := iframeBlk "DUP" "N1" ++ iframeBlk "DUP" "N2"
    apiItems := none, scrapeBody := "", altScrapeBody := "" }

/-- Folder reaching strategy 3, whose page repeats one long id twice. -/
def envC2w : FolderEnv :=
  { namePageBody := "", nameIframeBody := "", iframeStatus := 404, iframeBody := ""
    apiItems := none
    scrapeBody := scrapeBlk "B234567890123456789012345678" "Q1"
      ++ scrapeBlk "B234567890123456789012345678" "Q2"
    altScrapeBody := "" }

/-- C2 counterexample: the iframe strategy returns its entries as extracted,
without deduplication — `envC2`'s final listing carries the id `DUP` twice. -/
theorem c2_dedup_counterexample :
    ((list_files_in_folder "F2" envC2).1.map (fun f => f.id)) = ["DUP", "DUP"] ∧
    ¬ ((list_files_in_folder "F2" envC2).1.map (fun f => f.id)).Nodup :=
  ⟨by decide, by decide⟩

/-- C2 amended: only the raw-page-scraping strategy deduplicates: when the
iframe and API strategies produce zero entries, the final listing has
pairwise-distinct ids and each entry is the first cleaned entry with its id
(first occurrence wins); the iframe and API listings are returned as
produced, without deduplication. -/
theorem c2_dedup_amended (folder_id : String) (env : FolderEnv)
    (h1 : get_files_from_iframe env.iframeStatus env.iframeBody = [])
    (h2 : get_folder_contents_api env.apiItems = []) :
    ((list_files_in_folder folder_id env).1.map (fun f => f.id)).Nodup ∧
    (∀ f ∈ (list_files_in_folder folder_id env).1,
      ∃ l1 l2, (scrape_files env).filterMap cleanKeep = l1 ++ f :: l2 ∧
        ∀ g ∈ l1, g.id ≠ f.id) := by
  rw [listFiles_of_scrape folder_id env h1 h2, dedupLoop_eq]
  exact ⟨(dedupFirst_nodup _ []).1, fun f hf => dedupFirst_first_wins _ [] f hf⟩

/-- C2 amended witness: `envC2w` reaches strategy 3 with a duplicated id;
the final listing's ids are pairwise distinct. -/
theorem c2_dedup_amended_witness :
    ((list_files_in_folder "FW2" envC2w).1.map (fun f => f.id)).Nodup :=
  (c2_dedup_amended "FW2" envC2w (by decide) (by decide)).1

/-- Folder whose iframe view yields (via the looser id/name pairing of
method 2) an entry with the 2-character id `ab`. -/
def envC3 : FolderEnv :=
  { namePageBody := "", nameIframeBody := "", iframeStatus := 200
    iframeBody := "href=\"https://drive.google.com/file/d/ab/x\"<div class=\"flip-entry-title\">N</div>"
    apiItems := none, scrapeBody := "", altScrapeBody := "" }

/-- Folder reaching strategy 3 with one long-id entry. -/
def envC3w : FolderEnv :=
  { namePageBody := "", nameIframeBody := "", iframeStatus := 404, iframeBody := ""
    apiItems := none
    scrapeBody := scrapeBlk "C234567890123456789012345678" "R1"
    altScrapeBody := "" }

/-- C3 counterexample: the iframe strategy applies no id-length filter —
`envC3`'s final listing contains an entry whose id is 2 characters long. -/
theorem c3_short_id_counterexample :
    (list_files_in_folder "F3" envC3).1
      = [{ id := "ab", name := "N", type := "file" }] ∧
    ((list_files_in_folder "F3" envC3).1.any (fun f => f.id.length < 25)) = true :=
  ⟨by decide, by decide⟩

/-- C3 amended: the 25-character minimum on ids holds exactly on the
raw-page-scraping path: when the iframe and API strategies produce zero
entries, every entry of the final listing has an id of length at least 25;
the iframe and API strategies apply no such filter. -/
theorem c3_short_id_amended (folder_id : String) (env : FolderEnv)
    (h1 : get_files_from_iframe env.iframeStatus env.iframeBody = [])
    (h2 : get_folder_contents_api env.apiItems = []) :
    ∀ f ∈ (list_files_in_folder folder_id env).1, 25 ≤ f.id.length := by
  intro f hf
  rw [listFiles_of_scrape folder_id env h1 h2, dedupLoop_eq] at hf
  have hmem := mem_of_mem_dedupFirst _ [] f hf
  rcases List.mem_filterMap.mp hmem with ⟨g, -, hg⟩
  exact cleanKeep_id_length hg

/-- C3 amended witness: the one entry `envC3w` produces through strategy 3
has an id of length at least 25. -/
theorem c3_short_id_amended_witness :
    25 ≤ ({ id := "C234567890123456789012345678", name := "R1", type := "file" }
      : DriveFile).id.length :=
  c3_short_id_amended "FW3" envC3w (by decide) (by decide) _ (by
    have hl : (list_files_in_folder "FW3" envC3w).1
        = [{ id := "C234567890123456789012345678", name := "R1", type := "file" }] := by
      decide
    rw [hl]
    exact List.mem_cons_self _ _)

end Gdrive
